import Mathlib

/-!
Shallow embedding of the smart-vault Solana program
(`src/processor.rs`, `src/state.rs`, `src/utils.rs`, `src/error.rs`).

Conventions of the embedding:
* Public keys (`Pubkey`) are modelled as byte lists (`Bytes`), since the
  program both compares them for equality and serializes them into the
  40-byte signed message.
* `u64` values are modelled as `Nat` together with explicit wrapping
  (`% 2^64`) at every arithmetic operation the Rust release build performs
  with wrapping semantics (`+=`, `-=`, bitwise `!`).
* Each instruction handler becomes a pure function from an "accounts"
  record (the caller-supplied accounts together with the results of the
  external PDA derivations the handler performs) plus its instruction
  arguments and the clock reading, to `Except VErr` of the states it would
  serialize.  Returning `.error e` models the transaction aborting with no
  state change.
* Checks that delegate to the host runtime (`is_signer`, `owner ==
  program_id`, `is_ata_owner`) are modelled as the boolean results of
  those checks, passed in as fields of the accounts record, because the
  handler only branches on them.
* `Pubkey::find_program_address` is an external deterministic derivation;
  its results are passed in as `...Pda` fields and compared by the
  handlers exactly where the source compares them.
-/

set_option maxRecDepth 100000

/-- Byte strings (each entry is one byte value). -/
abbrev Bytes := List Nat

/-- `2^64`, the modulus of Rust `u64` arithmetic. -/
def U64MOD : Nat := 2 ^ 64

/-- Wrapping `u64` addition (Rust release-mode `+`). -/
def u64add (a b : Nat) : Nat := (a + b) % U64MOD

/-- Wrapping `u64` subtraction (Rust release-mode `-=`); correct for
`a b < U64MOD`. -/
def u64sub (a b : Nat) : Nat := (a + U64MOD - b) % U64MOD

/-- Bitwise `u64` complement (Rust `!` on `u64`); correct for `a < U64MOD`. -/
def u64not (a : Nat) : Nat := U64MOD - 1 - a

/-- `u64::to_be_bytes`: 8-byte big-endian encoding. -/
def u64beBytes (n : Nat) : Bytes :=
  [n / 2 ^ 56 % 256, n / 2 ^ 48 % 256, n / 2 ^ 40 % 256, n / 2 ^ 32 % 256,
   n / 2 ^ 24 % 256, n / 2 ^ 16 % 256, n / 2 ^ 8 % 256, n % 256]

/-- `u16::to_le_bytes`: 2-byte little-endian encoding. -/
def u16leBytes (n : Nat) : Bytes := [n % 256, n / 256 % 256]

/-- The all-zero public key: the system program id, which is also the byte
content of the `executor` field of a freshly allocated subscription
account (zero-filled account data). -/
def zeroPubkey : Bytes := List.replicate 32 0

/-- Stand-in for the ed25519 signature-verification program id
(`solana_program::ed25519_program::ID`); only compared for equality. -/
def ED25519_ID : Bytes := List.replicate 32 237

/-- Stand-in for the instructions-sysvar id
(`solana_program::sysvar::instructions::ID`); only compared for equality. -/
def IX_ID : Bytes := List.replicate 32 41

/-- All error values the handlers can surface (`VaultError` variants from
`src/error.rs` plus the `ProgramError` variants the handlers use). -/
inductive VErr where
  | MissingRequiredSignature
  | InvalidAccountOwner
  | UninitializedAccount
  | AccountAlreadyInitialized
  | InsufficientFunds
  | UnsupportedSysvar
  | InvalidPDA
  | InefficientBalance
  | LessThenMinimumTopupAmount
  | BidTimeExpired
  | BidAlreadyClaimed
  | UnAuthToClaimBid
  | BidClaimExpired
  | SubScriptionClosed
  | InvalidReport
  | ReportedEarly
  | RestartPhase
  | InvalidConsesues
  | SigVerificationFailed
deriving DecidableEq, Repr

/-- `VaultMetaDataState` from `src/state.rs`. -/
structure VaultMetaDataState where
  is_initialized : Bool
  attestation_proof : String
  vault_public_key : Bytes
deriving DecidableEq, Repr

/-- `VaultUserState` from `src/state.rs`. -/
structure VaultUserState where
  is_initialized : Bool
  count : Nat
  balance : Nat
deriving DecidableEq, Repr

/-- `VaultUserSubscriptionState` from `src/state.rs`. -/
structure VaultUserSubscriptionState where
  id : Nat
  is_initialized : Bool
  closed : Bool
  app_id : Nat
  params_hash : String
  max_rent : Nat
  is_assigned : Bool
  executor : Bytes
  bid_endtime : Nat
  rent : Nat
  nonce : Nat
  last_report_time : Nat
  restart : Bool
deriving DecidableEq, Repr

/-- `VaultBidderState` from `src/state.rs`. -/
structure VaultBidderState where
  is_initialized : Bool
  nonce : Nat
deriving DecidableEq, Repr

/-- A bundled instruction as observed through the instructions sysvar
(`solana_program::instruction::Instruction`): program id, number of
account metas, raw data. -/
structure Instruction where
  program_id : Bytes
  accountsLen : Nat
  data : Bytes
deriving DecidableEq, Repr

/-- `(data.drop s).take l`: the byte slice `data[s..s+l]`. -/
def bslice (data : Bytes) (s l : Nat) : Bytes := (data.drop s).take l

/-- `check_ed25519_data` from `src/utils.rs`: parse the fixed 16-byte
header of an ed25519-program instruction and compare every field with the
value implied by a single signature record laid out `header ‖ pubkey ‖
sig ‖ msg`, then byte-compare the three embedded segments.  (The source
indexes into `data`; callers only reach this after checking
`data.len() = 16 + 64 + 32 + msg.len()`, so the slices are total.  The
`u16` casts of the lengths wrap, hence the `% 2^16`.) -/
def check_ed25519_data (data pubkey msg sig : Bytes) : Except VErr Unit :=
  let exp_public_key_offset : Nat := 16
  let exp_signature_offset : Nat := (exp_public_key_offset + pubkey.length) % 2 ^ 16
  let exp_message_data_offset : Nat := (exp_signature_offset + sig.length) % 2 ^ 16
  if bslice data 0 1 ≠ [1]
      ∨ bslice data 1 1 ≠ [0]
      ∨ bslice data 2 2 ≠ u16leBytes exp_signature_offset
      ∨ bslice data 4 2 ≠ u16leBytes 65535
      ∨ bslice data 6 2 ≠ u16leBytes exp_public_key_offset
      ∨ bslice data 8 2 ≠ u16leBytes 65535
      ∨ bslice data 10 2 ≠ u16leBytes exp_message_data_offset
      ∨ bslice data 12 2 ≠ u16leBytes (msg.length % 2 ^ 16)
      ∨ bslice data 14 2 ≠ u16leBytes 65535 then
    .error .SigVerificationFailed
  else if bslice data 16 32 ≠ pubkey ∨ data.drop 112 ≠ msg ∨ bslice data 48 64 ≠ sig then
    .error .SigVerificationFailed
  else
    .ok ()

/-- `verify_ed25519_ix` from `src/utils.rs`: the record must target the
ed25519 program, carry zero accounts, and have data of length
`16 + 64 + 32 + msg.len()`; then the data is checked byte-for-byte. -/
def verify_ed25519_ix (ix : Instruction) (pubkey msg sig : Bytes) : Except VErr Unit :=
  if ix.program_id ≠ ED25519_ID
      ∨ ix.accountsLen ≠ 0
      ∨ ix.data.length ≠ 16 + 64 + 32 + msg.length then
    .error .SigVerificationFailed
  else
    check_ed25519_data ix.data pubkey msg sig

/-- The accounts and externally derived values consumed by
`is_valid_consesues` (`src/utils.rs`). `metadataPda` is
`find_program_address([VAULT_METADATA], program_id)`, `firstIx` the
instruction loaded at index 0 of the batch. -/
structure ConsensusCtx where
  metadataPda : Bytes
  metadataKey : Bytes
  metadataState : VaultMetaDataState
  consensusKey : Bytes
  ixSysvarKey : Bytes
  firstIx : Instruction
deriving DecidableEq, Repr

/-- `is_valid_consesues` from `src/utils.rs`. -/
def is_valid_consesues (ctx : ConsensusCtx) (raw_msg sig : Bytes) : Except VErr Unit :=
  if ctx.metadataPda ≠ ctx.metadataKey then
    .error .InvalidPDA
  else if !ctx.metadataState.is_initialized then
    .error .UninitializedAccount
  else if ctx.metadataState.vault_public_key ≠ ctx.consensusKey then
    .error .InvalidConsesues
  else if ctx.ixSysvarKey ≠ IX_ID then
    .error .UnsupportedSysvar
  else
    verify_ed25519_ix ctx.firstIx ctx.consensusKey raw_msg sig

/-- Accounts of the `Bid` handler (`bid`, `src/processor.rs`).
`bidderStatePda` is `find_program_address([BIDDER_STATE, bidder.key],
program_id)`.  `bidderStateOwnerIsProgram` is the ownership check made
after the (possible) lazy creation of the bidder-state account.  The
handler reads `sub_state.key` only for logging, and never derives the
subscription PDA. -/
structure BidAccounts where
  bidderIsSigner : Bool
  bidderKey : Bytes
  bidderStateKey : Bytes
  bidderStatePda : Bytes
  bidderStateOwnerIsProgram : Bool
  bidderState : VaultBidderState
  subStateKey : Bytes
  subStateOwnerIsProgram : Bool
  subState : VaultUserSubscriptionState
  systemProgramKey : Bytes
  ctx : ConsensusCtx
deriving DecidableEq, Repr

/-- The part of `bid` after signature authentication
(`src/processor.rs` lines 630-663): subscription-initialization check,
bid-window check, the acceptance rule, and the serialized states. -/
def bidSettle (a : BidAccounts) (bid_amount : Nat) (cur_time : Nat) :
    Except VErr (VaultBidderState × VaultUserSubscriptionState) :=
  if !a.subState.is_initialized then
    .error .UninitializedAccount
  else if cur_time < a.subState.bid_endtime then
    let s := a.subState
    let s :=
      if bid_amount < s.rent then
        { s with executor := a.bidderKey, rent := bid_amount }
      else if bid_amount = s.rent then
        if s.executor = a.systemProgramKey then
          { s with executor := a.bidderKey }
        else s
      else s
    .ok ({ is_initialized := true, nonce := u64add a.bidderState.nonce 1 }, s)
  else
    .error .BidTimeExpired

/-- `bid` from `src/processor.rs` (lines 556-664): account checks and
signature authentication, then `bidSettle`. -/
def bid (a : BidAccounts) (_signature : Bytes) (bid_amount : Nat) (cur_time : Nat) :
    Except VErr (VaultBidderState × VaultUserSubscriptionState) :=
  if !a.bidderIsSigner then
    .error .MissingRequiredSignature
  else if !a.subStateOwnerIsProgram then
    .error .InvalidAccountOwner
  else if a.bidderStatePda ≠ a.bidderStateKey then
    .error .InvalidPDA
  else if !a.bidderStateOwnerIsProgram then
    .error .InvalidAccountOwner
  else
    match is_valid_consesues a.ctx (a.bidderKey ++ u64beBytes a.bidderState.nonce) _signature with
    | .error e => .error e
    | .ok _ => bidSettle a bid_amount cur_time

/-- Accounts of the `ClaimBid` handler (`claimbid`, `src/processor.rs`).
`bidderStatePda` is `find_program_address([BIDDER_STATE, bid_winner.key],
program_id)`.  The handler never derives the subscription PDA. -/
structure ClaimBidAccounts where
  bidWinnerIsSigner : Bool
  bidWinnerKey : Bytes
  bidWinnerStateKey : Bytes
  bidderStatePda : Bytes
  bidWinnerStateOwnerIsProgram : Bool
  bidWinnerState : VaultBidderState
  subStateKey : Bytes
  subStateOwnerIsProgram : Bool
  subState : VaultUserSubscriptionState
  ctx : ConsensusCtx
deriving DecidableEq, Repr

/-- The part of `claimbid` after signature authentication
(`src/processor.rs` lines 727-768): closed/assigned/executor checks, the
claim window, and the serialized states. -/
def claimbidSettle (a : ClaimBidAccounts) (cur_time : Nat) :
    Except VErr (VaultBidderState × VaultUserSubscriptionState) :=
  if !a.subState.is_initialized then
    .error .UninitializedAccount
  else if a.subState.closed then
    .error .SubScriptionClosed
  else if a.subState.is_assigned then
    .error .BidAlreadyClaimed
  else if a.subState.executor ≠ a.bidWinnerKey then
    .error .UnAuthToClaimBid
  else if cur_time > u64add a.subState.bid_endtime 300 then
    .error .BidClaimExpired
  else if cur_time < a.subState.bid_endtime then
    .error .ReportedEarly
  else
    .ok ({ a.bidWinnerState with nonce := u64add a.bidWinnerState.nonce 1 },
         { a.subState with is_assigned := true, last_report_time := cur_time })

/-- `claimbid` from `src/processor.rs` (lines 666-769): account checks and
signature authentication, then `claimbidSettle`. -/
def claimbid (a : ClaimBidAccounts) (_signature : Bytes) (cur_time : Nat) :
    Except VErr (VaultBidderState × VaultUserSubscriptionState) :=
  if !a.bidWinnerIsSigner then
    .error .MissingRequiredSignature
  else if !a.bidWinnerStateOwnerIsProgram then
    .error .InvalidAccountOwner
  else if !a.subStateOwnerIsProgram then
    .error .InvalidAccountOwner
  else if a.bidderStatePda ≠ a.bidWinnerStateKey then
    .error .InvalidPDA
  else if !a.bidWinnerState.is_initialized then
    .error .UninitializedAccount
  else
    match is_valid_consesues a.ctx (a.bidWinnerKey ++ u64beBytes a.bidWinnerState.nonce) _signature with
    | .error e => .error e
    | .ok _ => claimbidSettle a cur_time

/-- Accounts of the `ReportWork` handler (`report_work`,
`src/processor.rs`).  The `...Pda` fields are the results of the
`find_program_address` calls the handler makes: `programTreasuryPda` over
`[TREASURY_STATE]`, `bidderStatePda` over `[BIDDER_STATE,
bid_winner.key]`, `userStatePda` over `[USER_STATE, user.key]`, and
`subStatePda` over `[SUB_STATE, user.key, sub_state_data.id]`. -/
structure ReportWorkAccounts where
  bidWinnerIsSigner : Bool
  bidWinnerKey : Bytes
  bidWinnerStateOwnerIsProgram : Bool
  subStateOwnerIsProgram : Bool
  userStateOwnerIsProgram : Bool
  bidWinnerAtaOwnedByWinner : Bool
  programTreasuryOwnerIsProgram : Bool
  programTreasuryPda : Bytes
  programTreasuryKey : Bytes
  programAtaOwnedByTreasury : Bool
  bidderStatePda : Bytes
  bidWinnerStateKey : Bytes
  userStatePda : Bytes
  userStateKey : Bytes
  userState : VaultUserState
  bidWinnerState : VaultBidderState
  subStatePda : Bytes
  subStateKey : Bytes
  subState : VaultUserSubscriptionState
  ctx : ConsensusCtx
deriving DecidableEq, Repr

/-- Result of a successful `ReportWork` call: the three states the handler
serializes, plus the amount the treasury transferred to the worker
(`0` when the transfer branch was not taken). -/
structure ReportResult where
  bidWinnerState : VaultBidderState
  userState : VaultUserState
  subState : VaultUserSubscriptionState
  paidToWorker : Nat
deriving DecidableEq, Repr

/-- The liveness-window early-report check and the settlement of
`report_work` (`src/processor.rs` lines 925-977), applied to the
subscription state `s` as updated by the SLA-breach check.  The
early-report branch is the source's `else if`: it is reached only when
`cur_time ≤ last_report_time + 900`.  The insolvency test is a faithful
rendering of the source line
`if !user_state_data.balance < sub_state_data.rent`, where `!` is Rust's
bitwise complement on `u64` (it binds tighter than `<`).  The user state
is serialized only in the payment branch, but on the force-close branch it
was not modified, so returning it unchanged is equivalent. -/
def reportSettleBody (a : ReportWorkAccounts) (nonce : Nat) (cur_time : Nat)
    (s : VaultUserSubscriptionState) : Except VErr ReportResult :=
  if cur_time ≤ u64add a.subState.last_report_time 900
      ∧ cur_time < u64add a.subState.last_report_time 600 then
    .error .ReportedEarly
  else
    let s := if s.nonce ≠ nonce then { s with restart := true } else s
    if u64not a.userState.balance < s.rent then
      .ok { bidWinnerState :=
              { a.bidWinnerState with nonce := u64add a.bidWinnerState.nonce 1 },
            userState := a.userState,
            subState := { s with closed := true },
            paidToWorker := 0 }
    else if !s.restart then
      .ok { bidWinnerState :=
              { a.bidWinnerState with nonce := u64add a.bidWinnerState.nonce 1 },
            userState :=
              { a.userState with balance := u64sub a.userState.balance s.rent },
            subState :=
              { s with nonce := u64add s.nonce 1, last_report_time := cur_time },
            paidToWorker := s.rent }
    else
      .ok { bidWinnerState :=
              { a.bidWinnerState with nonce := u64add a.bidWinnerState.nonce 1 },
            userState := a.userState,
            subState := s,
            paidToWorker := 0 }

/-- The part of `report_work` after signature authentication
(`src/processor.rs` lines 883-977): subscription checks, the liveness
window, the worker-nonce check, and settlement (`reportSettleBody`). -/
def reportSettle (a : ReportWorkAccounts) (nonce : Nat) (cur_time : Nat) :
    Except VErr ReportResult :=
  if !a.subState.is_initialized then
    .error .UninitializedAccount
  else if a.subStatePda ≠ a.subStateKey then
    .error .InvalidPDA
  else if a.subState.closed then
    .error .SubScriptionClosed
  else if !a.subState.is_assigned then
    .error .BidAlreadyClaimed
  else if a.subState.executor ≠ a.bidWinnerKey then
    .error .UnAuthToClaimBid
  else if a.subState.restart then
    .error .RestartPhase
  else
    reportSettleBody a nonce cur_time
      (if cur_time > u64add a.subState.last_report_time 900 then
        { a.subState with restart := true }
      else a.subState)

/-- The account-shape checks of `report_work`
(`src/processor.rs` lines 792-867), in source order. -/
def reportAccountChecks (a : ReportWorkAccounts) : Except VErr Unit :=
  if !a.bidWinnerIsSigner then
    .error .MissingRequiredSignature
  else if !a.bidWinnerStateOwnerIsProgram then
    .error .InvalidAccountOwner
  else if !a.subStateOwnerIsProgram then
    .error .InvalidAccountOwner
  else if !a.userStateOwnerIsProgram then
    .error .InvalidAccountOwner
  else if !a.bidWinnerAtaOwnedByWinner then
    .error .InvalidAccountOwner
  else if !a.programTreasuryOwnerIsProgram then
    .error .InvalidAccountOwner
  else if a.programTreasuryPda ≠ a.programTreasuryKey then
    .error .InvalidPDA
  else if !a.programAtaOwnedByTreasury then
    .error .InvalidAccountOwner
  else if a.bidderStatePda ≠ a.bidWinnerStateKey then
    .error .InvalidPDA
  else if a.userStatePda ≠ a.userStateKey then
    .error .InvalidPDA
  else if !a.userState.is_initialized then
    .error .UninitializedAccount
  else if !a.bidWinnerState.is_initialized then
    .error .UninitializedAccount
  else
    .ok ()

/-- `report_work` from `src/processor.rs` (lines 771-978): account checks
and signature authentication, then `reportSettle`. -/
def report_work (a : ReportWorkAccounts) (nonce : Nat) (_signature : Bytes)
    (cur_time : Nat) : Except VErr ReportResult :=
  match reportAccountChecks a with
  | .error e => .error e
  | .ok _ =>
    match is_valid_consesues a.ctx (a.bidWinnerKey ++ u64beBytes a.bidWinnerState.nonce) _signature with
    | .error e => .error e
    | .ok _ => reportSettle a nonce cur_time

/-- Accounts of the `StartSubscription` handler (`start_subscription`,
`src/processor.rs`).  `appStatePda` is derived over `[APP_STATE, app_id]`,
`subscriberStatePda` over `[USER_STATE, subscriber.key]`, and
`subscriberSubStatePda` over `[SUB_STATE, subscriber.key,
subscriber_state.count]`.  `freshSubState` is the deserialization of the
freshly created, zero-filled subscription account (all counters zero, all
flags false, executor the all-zero key, empty hash). -/
structure StartSubscriptionAccounts where
  subscriberIsSigner : Bool
  subscriberKey : Bytes
  appStateOwnerIsProgram : Bool
  subscriberStateOwnerIsProgram : Bool
  appStatePda : Bytes
  appStateKey : Bytes
  appStateInitialized : Bool
  subscriberStatePda : Bytes
  subscriberStateKey : Bytes
  subscriberState : VaultUserState
  subscriberSubStatePda : Bytes
  subscriberSubStateKey : Bytes
deriving DecidableEq, Repr

/-- The deserialization of a zero-filled subscription account buffer. -/
def freshSubState : VaultUserSubscriptionState :=
  { id := 0, is_initialized := false, closed := false, app_id := 0,
    params_hash := "", max_rent := 0, is_assigned := false,
    executor := zeroPubkey, bid_endtime := 0, rent := 0, nonce := 0,
    last_report_time := 0, restart := false }

/-- `start_subscription` from `src/processor.rs` (lines 415-554): returns
the new subscription state and the updated subscriber (user) state. -/
def start_subscription (a : StartSubscriptionAccounts) (max_rent app_id : Nat)
    (params_hash : String) (cur_time : Nat) :
    Except VErr (VaultUserSubscriptionState × VaultUserState) :=
  if !a.subscriberIsSigner then
    .error .MissingRequiredSignature
  else if !a.appStateOwnerIsProgram then
    .error .InvalidAccountOwner
  else if !a.subscriberStateOwnerIsProgram then
    .error .InvalidAccountOwner
  else if a.appStatePda ≠ a.appStateKey then
    .error .InvalidPDA
  else if !a.appStateInitialized then
    .error .UninitializedAccount
  else if a.subscriberStatePda ≠ a.subscriberStateKey then
    .error .InvalidPDA
  else if !a.subscriberState.is_initialized then
    .error .UninitializedAccount
  else if a.subscriberState.balance < max_rent then
    .error .InefficientBalance
  else if a.subscriberSubStatePda ≠ a.subscriberSubStateKey then
    .error .InvalidPDA
  else if freshSubState.is_initialized then
    .error .AccountAlreadyInitialized
  else
    .ok ({ freshSubState with
            id := a.subscriberState.count,
            app_id := app_id,
            is_initialized := true,
            params_hash := params_hash,
            max_rent := max_rent,
            rent := max_rent,
            bid_endtime := u64add cur_time 60 },
         { a.subscriberState with count := u64add a.subscriberState.count 1 })

/-- Accounts of the `CloseSub` handler (`close_sub`, `src/processor.rs`).
`userSubPda` is derived over `[SUB_STATE, user.key, sub_state_data.id]`. -/
structure CloseSubAccounts where
  userIsSigner : Bool
  userKey : Bytes
  userSubKey : Bytes
  userSubOwnerIsProgram : Bool
  subState : VaultUserSubscriptionState
  userSubPda : Bytes
deriving DecidableEq, Repr

/-- `close_sub` from `src/processor.rs` (lines 980-1022): returns the
subscription state it serializes. -/
def close_sub (a : CloseSubAccounts) : Except VErr VaultUserSubscriptionState :=
  if !a.userIsSigner then
    .error .MissingRequiredSignature
  else if !a.userSubOwnerIsProgram then
    .error .InvalidAccountOwner
  else if !a.subState.is_initialized then
    .error .UninitializedAccount
  else if a.userSubPda ≠ a.userSubKey then
    .error .InvalidPDA
  else
    .ok { a.subState with closed := true }

/-! ## Concrete fixtures

A well-formed ed25519 verification record and account sets on which every
check of the handlers passes; used to exercise the theorems below on
closed inputs. -/

/-- Example oracle ("consensus") public key. -/
def oracleKey : Bytes := List.replicate 32 5

/-- Example bidder/worker public key. -/
def bidderKeyEx : Bytes := List.replicate 32 2

/-- Example raw 64-byte signature. -/
def sigEx : Bytes := List.replicate 64 3

/-- The 40-byte authenticated message `signer ‖ big-endian nonce`. -/
def msgFor (k : Bytes) (n : Nat) : Bytes := k ++ u64beBytes n

/-- The 16-byte ed25519-program header describing one signature record
with a 32-byte key at offset 16, a 64-byte signature at offset 48 and the
message at offset 112, all in the current instruction (`u16::MAX`). -/
def edIxHeader (msgLen : Nat) : Bytes :=
  [1, 0] ++ u16leBytes 48 ++ u16leBytes 65535 ++ u16leBytes 16 ++ u16leBytes 65535
    ++ u16leBytes 112 ++ u16leBytes msgLen ++ u16leBytes 65535

/-- An ed25519-program instruction whose data is laid out
`header ‖ pubkey ‖ sig ‖ msg` (the layout `check_ed25519_data` reads). -/
def goodEdIx (pubkey msg sig : Bytes) : Instruction :=
  { program_id := ED25519_ID, accountsLen := 0,
    data := edIxHeader msg.length ++ pubkey ++ sig ++ msg }

/-- Example metadata PDA address. -/
def mdPdaEx : Bytes := List.replicate 32 9

/-- A consensus context on which `is_valid_consesues` succeeds for the
given message and signature. -/
def okCtx (msg sig : Bytes) : ConsensusCtx :=
  { metadataPda := mdPdaEx, metadataKey := mdPdaEx,
    metadataState :=
      { is_initialized := true, attestation_proof := "att",
        vault_public_key := oracleKey },
    consensusKey := oracleKey, ixSysvarKey := IX_ID,
    firstIx := goodEdIx oracleKey msg sig }

/-- Example open subscription: ceiling 100, bidding until time 50, no
executor assigned yet. -/
def subEx : VaultUserSubscriptionState :=
  { id := 0, is_initialized := true, closed := false, app_id := 1,
    params_hash := "ph", max_rent := 100, is_assigned := false,
    executor := zeroPubkey, bid_endtime := 50, rent := 100, nonce := 0,
    last_report_time := 0, restart := false }

/-- Example accounts on which every pre-acceptance check of `bid`
passes. -/
def bidAccEx : BidAccounts :=
  { bidderIsSigner := true, bidderKey := bidderKeyEx,
    bidderStateKey := List.replicate 32 11,
    bidderStatePda := List.replicate 32 11,
    bidderStateOwnerIsProgram := true,
    bidderState := { is_initialized := false, nonce := 0 },
    subStateKey := [1], subStateOwnerIsProgram := true,
    subState := subEx, systemProgramKey := zeroPubkey,
    ctx := okCtx (msgFor bidderKeyEx 0) sigEx }

/-- Example accounts on which every pre-window check of `claimbid`
passes: the bidder of `bidAccEx` has won at price 90 and claims. -/
def claimAccEx : ClaimBidAccounts :=
  { bidWinnerIsSigner := true, bidWinnerKey := bidderKeyEx,
    bidWinnerStateKey := List.replicate 32 11,
    bidderStatePda := List.replicate 32 11,
    bidWinnerStateOwnerIsProgram := true,
    bidWinnerState := { is_initialized := true, nonce := 1 },
    subStateKey := [1], subStateOwnerIsProgram := true,
    subState := { subEx with executor := bidderKeyEx, rent := 90 },
    ctx := okCtx (msgFor bidderKeyEx 1) sigEx }

/-- Example accounts on which every pre-settlement check of `report_work`
passes: assigned subscription at price 85, subscriber escrow balance
1000. -/
def reportAccEx : ReportWorkAccounts :=
  { bidWinnerIsSigner := true, bidWinnerKey := bidderKeyEx,
    bidWinnerStateOwnerIsProgram := true, subStateOwnerIsProgram := true,
    userStateOwnerIsProgram := true, bidWinnerAtaOwnedByWinner := true,
    programTreasuryOwnerIsProgram := true,
    programTreasuryPda := List.replicate 32 13,
    programTreasuryKey := List.replicate 32 13,
    programAtaOwnedByTreasury := true,
    bidderStatePda := List.replicate 32 11,
    bidWinnerStateKey := List.replicate 32 11,
    userStatePda := List.replicate 32 14,
    userStateKey := List.replicate 32 14,
    userState := { is_initialized := true, count := 1, balance := 1000 },
    bidWinnerState := { is_initialized := true, nonce := 2 },
    subStatePda := List.replicate 32 15,
    subStateKey := List.replicate 32 15,
    subState := { subEx with is_assigned := true, executor := bidderKeyEx,
                             rent := 85, last_report_time := 100 },
    ctx := okCtx (msgFor bidderKeyEx 2) sigEx }

/-- The spec's insolvency example: escrow balance 50, current price 85 at
report time (all other checks passing). -/
def reportAccLowBalance : ReportWorkAccounts :=
  { reportAccEx with
      userState := { is_initialized := true, count := 1, balance := 50 } }

/-- Example accounts on which every check of `start_subscription`
passes. -/
def startAccEx : StartSubscriptionAccounts :=
  { subscriberIsSigner := true, subscriberKey := List.replicate 32 4,
    appStateOwnerIsProgram := true, subscriberStateOwnerIsProgram := true,
    appStatePda := List.replicate 32 16, appStateKey := List.replicate 32 16,
    appStateInitialized := true,
    subscriberStatePda := List.replicate 32 17,
    subscriberStateKey := List.replicate 32 17,
    subscriberState := { is_initialized := true, count := 0, balance := 500 },
    subscriberSubStatePda := List.replicate 32 18,
    subscriberSubStateKey := List.replicate 32 18 }

/-- Example accounts on which every check of `close_sub` passes. -/
def closeAccEx : CloseSubAccounts :=
  { userIsSigner := true, userKey := List.replicate 32 4,
    userSubKey := List.replicate 32 18, userSubOwnerIsProgram := true,
    subState := subEx, userSubPda := List.replicate 32 18 }

/-! ## Hypothesis bundles

Conjunctions of the checks a handler performs before the step a claim is
about; each conjunct is one source check, in source order. -/

/-- All checks of `bid` up to and including subscription initialization
(everything before the bid-window/acceptance logic). -/
def bidAuthOk (a : BidAccounts) (sig : Bytes) : Prop :=
  a.bidderIsSigner = true
  ∧ a.subStateOwnerIsProgram = true
  ∧ a.bidderStatePda = a.bidderStateKey
  ∧ a.bidderStateOwnerIsProgram = true
  ∧ is_valid_consesues a.ctx (a.bidderKey ++ u64beBytes a.bidderState.nonce) sig = .ok ()
  ∧ a.subState.is_initialized = true

/-- All checks of `claimbid` up to and including subscription
initialization (everything before the closed/assigned/executor/window
logic). -/
def claimAuthOk (a : ClaimBidAccounts) (sig : Bytes) : Prop :=
  a.bidWinnerIsSigner = true
  ∧ a.bidWinnerStateOwnerIsProgram = true
  ∧ a.subStateOwnerIsProgram = true
  ∧ a.bidderStatePda = a.bidWinnerStateKey
  ∧ a.bidWinnerState.is_initialized = true
  ∧ is_valid_consesues a.ctx (a.bidWinnerKey ++ u64beBytes a.bidWinnerState.nonce) sig = .ok ()
  ∧ a.subState.is_initialized = true

/-- All checks of `report_work` up to and including the restart check
(everything before the liveness-window and settlement logic). -/
def reportAuthOk (a : ReportWorkAccounts) (sig : Bytes) : Prop :=
  a.bidWinnerIsSigner = true
  ∧ a.bidWinnerStateOwnerIsProgram = true
  ∧ a.subStateOwnerIsProgram = true
  ∧ a.userStateOwnerIsProgram = true
  ∧ a.bidWinnerAtaOwnedByWinner = true
  ∧ a.programTreasuryOwnerIsProgram = true
  ∧ a.programTreasuryPda = a.programTreasuryKey
  ∧ a.programAtaOwnedByTreasury = true
  ∧ a.bidderStatePda = a.bidWinnerStateKey
  ∧ a.userStatePda = a.userStateKey
  ∧ a.userState.is_initialized = true
  ∧ a.bidWinnerState.is_initialized = true
  ∧ is_valid_consesues a.ctx (a.bidWinnerKey ++ u64beBytes a.bidWinnerState.nonce) sig = .ok ()
  ∧ a.subState.is_initialized = true
  ∧ a.subStatePda = a.subStateKey
  ∧ a.subState.closed = false
  ∧ a.subState.is_assigned = true
  ∧ a.subState.executor = a.bidWinnerKey
  ∧ a.subState.restart = false

/-- Acceptance of a verification record under the layout the claim
describes (16-byte header, then the 64-byte signature, then the 32-byte
key, then the message).  Modelled from the spec's words for comparison
with `verify_ed25519_ix`; the byte-length/identity conditions are those
of the source. -/
def claimedLayoutAccepts (ix : Instruction) (pubkey msg sig : Bytes) : Prop :=
  ix.program_id = ED25519_ID
  ∧ ix.accountsLen = 0
  ∧ ix.data.length = 16 + 64 + 32 + msg.length
  ∧ bslice ix.data 16 64 = sig
  ∧ bslice ix.data 80 32 = pubkey
  ∧ ix.data.drop 112 = msg

deriving instance DecidableEq for Except

instance (a : BidAccounts) (sig : Bytes) : Decidable (bidAuthOk a sig) := by
  unfold bidAuthOk
  exact inferInstance

instance (a : ClaimBidAccounts) (sig : Bytes) : Decidable (claimAuthOk a sig) := by
  unfold claimAuthOk
  exact inferInstance

instance (a : ReportWorkAccounts) (sig : Bytes) : Decidable (reportAuthOk a sig) := by
  unfold reportAuthOk
  exact inferInstance

/-! ## Helper lemmas -/

theorem bslice_append (l : Bytes) (a m n : Nat) :
    bslice l a m ++ bslice l (a + m) n = bslice l a (m + n) := by
  simp [bslice, List.take_add, List.drop_drop, Nat.add_comm]

theorem closed_update_self (s : VaultUserSubscriptionState) (h : s.closed = true) :
    { s with closed := true } = s := by
  cases s
  simp_all

/-- A successful `bid` succeeds through `bidSettle`. -/
theorem bid_ok_elim {a : BidAccounts} {sig : Bytes} {amt t : Nat}
    {b : VaultBidderState} {s : VaultUserSubscriptionState}
    (h : bid a sig amt t = .ok (b, s)) :
    bidSettle a amt t = .ok (b, s) := by
  unfold bid at h
  repeat' split at h
  all_goals first | exact Except.noConfusion h | exact h

/-- A successful `claimbid` succeeds through `claimbidSettle`. -/
theorem claimbid_ok_elim {a : ClaimBidAccounts} {sig : Bytes} {t : Nat}
    {b : VaultBidderState} {s : VaultUserSubscriptionState}
    (h : claimbid a sig t = .ok (b, s)) :
    claimbidSettle a t = .ok (b, s) := by
  unfold claimbid at h
  repeat' split at h
  all_goals first | exact Except.noConfusion h | exact h

/-- A successful `report_work` succeeds through `reportSettle`. -/
theorem report_work_ok_elim {a : ReportWorkAccounts} {n : Nat} {sig : Bytes}
    {t : Nat} {r : ReportResult}
    (h : report_work a n sig t = .ok r) :
    reportSettle a n t = .ok r := by
  unfold report_work at h
  cases h1 : reportAccountChecks a
  all_goals rw [h1] at h
  · exact Except.noConfusion h
  cases h2 : is_valid_consesues a.ctx (a.bidWinnerKey ++ u64beBytes a.bidWinnerState.nonce) sig
  all_goals rw [h2] at h
  · exact Except.noConfusion h
  · exact h

/-- Inversion of a successful `bid`: the serialized bidder state, the
serialized subscription state, and the fact that the call arrived before
the bid-window end. -/
theorem bid_ok_inv {a : BidAccounts} {sig : Bytes} {amt t : Nat}
    {b : VaultBidderState} {s : VaultUserSubscriptionState}
    (h : bid a sig amt t = .ok (b, s)) :
    b = { is_initialized := true, nonce := u64add a.bidderState.nonce 1 }
    ∧ s = (if amt < a.subState.rent then
            { a.subState with executor := a.bidderKey, rent := amt }
          else if amt = a.subState.rent then
            (if a.subState.executor = a.systemProgramKey then
              { a.subState with executor := a.bidderKey }
            else a.subState)
          else a.subState)
    ∧ t < a.subState.bid_endtime := by
  have h2 := bid_ok_elim h
  unfold bidSettle at h2
  repeat' split at h2
  all_goals try exact Except.noConfusion h2
  all_goals injection h2 with h1
  all_goals injection h1 with hb hs
  all_goals subst hb
  all_goals subst hs
  all_goals refine ⟨rfl, ?_, by assumption⟩
  all_goals repeat' split
  all_goals simp_all

/-- Inversion of a successful `claimbid`. -/
theorem claimbid_ok_inv {a : ClaimBidAccounts} {sig : Bytes} {t : Nat}
    {b : VaultBidderState} {s : VaultUserSubscriptionState}
    (h : claimbid a sig t = .ok (b, s)) :
    b = { a.bidWinnerState with nonce := u64add a.bidWinnerState.nonce 1 }
    ∧ s = { a.subState with is_assigned := true, last_report_time := t } := by
  have h2 := claimbid_ok_elim h
  unfold claimbidSettle at h2
  repeat' split at h2
  all_goals try exact Except.noConfusion h2
  all_goals injection h2 with h1
  all_goals injection h1 with hb hs
  all_goals subst hb
  all_goals subst hs
  all_goals exact ⟨rfl, rfl⟩

/-- A successful `reportSettle` succeeds through `reportSettleBody` on
the SLA-updated subscription state. -/
theorem reportSettle_ok_elim {a : ReportWorkAccounts} {n t : Nat} {r : ReportResult}
    (h : reportSettle a n t = .ok r) :
    ∃ s, reportSettleBody a n t s = .ok r := by
  unfold reportSettle at h
  repeat' split at h
  all_goals try exact Except.noConfusion h
  all_goals exact ⟨_, h⟩

/-- Inversion of a successful `reportSettleBody`, bidder-state part. -/
theorem reportSettleBody_ok_nonce {a : ReportWorkAccounts} {n t : Nat}
    {s : VaultUserSubscriptionState} {r : ReportResult}
    (h : reportSettleBody a n t s = .ok r) :
    r.bidWinnerState = { a.bidWinnerState with nonce := u64add a.bidWinnerState.nonce 1 } := by
  unfold reportSettleBody at h
  try simp only [] at h
  repeat' split at h
  all_goals try exact Except.noConfusion h
  all_goals injection h with h1
  all_goals subst h1
  all_goals rfl

/-- Inversion of a successful `report_work`, bidder-state part: the replay
nonce is always bumped, whichever settlement branch was taken. -/
theorem report_work_ok_nonce {a : ReportWorkAccounts} {n : Nat} {sig : Bytes}
    {t : Nat} {r : ReportResult}
    (h : report_work a n sig t = .ok r) :
    r.bidWinnerState = { a.bidWinnerState with nonce := u64add a.bidWinnerState.nonce 1 } := by
  obtain ⟨s, hs⟩ := reportSettle_ok_elim (report_work_ok_elim h)
  exact reportSettleBody_ok_nonce hs

set_option maxHeartbeats 1000000 in
/-- Inversion of a successful `start_subscription`: the initial price
equals the ceiling. -/
theorem start_subscription_ok_inv {a : StartSubscriptionAccounts}
    {mr ai : Nat} {ph : String} {t : Nat}
    {s : VaultUserSubscriptionState} {u : VaultUserState}
    (h : start_subscription a mr ai ph t = .ok (s, u)) :
    s.rent = mr ∧ s.max_rent = mr := by
  unfold start_subscription at h
  repeat' split at h
  all_goals try exact Except.noConfusion h
  all_goals injection h with h1
  all_goals injection h1 with hs hu
  all_goals subst hs
  all_goals exact ⟨rfl, rfl⟩

/-! ## Claim theorems -/

/-- C1: the claim says that in ReportWork settlement, an escrow balance
below the current price force-closes the subscription with no payment
(the spec's own example: balance 50, price 85), and otherwise the price
is paid and debited, so the balance never goes negative.  The source line
`if !user_state_data.balance < sub_state_data.rent` applies Rust's
bitwise complement to the balance before the comparison, inverting the
insolvency check: at the spec's example (balance 50, price 85, report at
time 800 with every other check passing) the code takes the payment
branch, pays 85, leaves the subscription open, and wraps the subscriber
balance to `2^64 - 35` instead of force-closing with no payment. -/
theorem C1_insolvency_check_inverted :
    report_work reportAccLowBalance 0 sigEx 800 =
      .ok { bidWinnerState := { is_initialized := true, nonce := 3 },
            userState := { is_initialized := true, count := 1, balance := U64MOD - 35 },
            subState := { id := 0, is_initialized := true, closed := false, app_id := 1,
                          params_hash := "ph", max_rent := 100, is_assigned := true,
                          executor := bidderKeyEx, bid_endtime := 50, rent := 85,
                          nonce := 1, last_report_time := 800, restart := false },
            paidToWorker := 85 } := by
  decide

/-- C4: every successful authenticated call (Bid, ClaimBid, ReportWork)
leaves the caller's replay-guard nonce exactly one greater than before,
regardless of outcome or settlement branch (stated below the `u64` wrap
bound; a failed call aborts the transaction and changes no state, so the
nonce never decreases under any operation). -/
theorem C4_replay_nonce_increment :
    (∀ (a : BidAccounts) (sig : Bytes) (amt t : Nat)
        (b : VaultBidderState) (s : VaultUserSubscriptionState),
        a.bidderState.nonce + 1 < U64MOD →
        bid a sig amt t = .ok (b, s) → b.nonce = a.bidderState.nonce + 1)
    ∧ (∀ (a : ClaimBidAccounts) (sig : Bytes) (t : Nat)
        (b : VaultBidderState) (s : VaultUserSubscriptionState),
        a.bidWinnerState.nonce + 1 < U64MOD →
        claimbid a sig t = .ok (b, s) → b.nonce = a.bidWinnerState.nonce + 1)
    ∧ (∀ (a : ReportWorkAccounts) (n : Nat) (sig : Bytes) (t : Nat)
        (r : ReportResult),
        a.bidWinnerState.nonce + 1 < U64MOD →
        report_work a n sig t = .ok r →
        r.bidWinnerState.nonce = a.bidWinnerState.nonce + 1) := by
  refine ⟨?_, ?_, ?_⟩
  · intro a sig amt t b s hlt h
    rw [(bid_ok_inv h).1]
    simpa [u64add] using Nat.mod_eq_of_lt hlt
  · intro a sig t b s hlt h
    rw [(claimbid_ok_inv h).1]
    simpa [u64add] using Nat.mod_eq_of_lt hlt
  · intro a n sig t r hlt h
    rw [report_work_ok_nonce h]
    simpa [u64add] using Nat.mod_eq_of_lt hlt

/-- C4, witness: the example bid (nonce 0) succeeds and stores nonce 1. -/
theorem C4_replay_nonce_increment_witness :
    bidAccEx.bidderState.nonce + 1 < U64MOD
    ∧ bid bidAccEx sigEx 90 0 =
        .ok ({ is_initialized := true, nonce := 1 },
             { subEx with executor := bidderKeyEx, rent := 90 })
    ∧ (1 : Nat) = bidAccEx.bidderState.nonce + 1 :=
  ⟨by decide, by decide,
   C4_replay_nonce_increment.1 bidAccEx sigEx 90 0
     ({ is_initialized := true, nonce := 1 })
     ({ subEx with executor := bidderKeyEx, rent := 90 })
     (by decide) (by decide)⟩

/-- C8: the current price never exceeds the max-price ceiling: Open
(`start_subscription`) sets the price equal to the ceiling, a successful
Bid never raises the price and never changes the ceiling, so the
invariant `rent ≤ max_rent` is preserved by every Bid. -/
theorem C8_price_never_exceeds_ceiling :
    (∀ (a : StartSubscriptionAccounts) (mr ai : Nat) (ph : String) (t : Nat)
        (s : VaultUserSubscriptionState) (u : VaultUserState),
        start_subscription a mr ai ph t = .ok (s, u) → s.rent = s.max_rent)
    ∧ (∀ (a : BidAccounts) (sig : Bytes) (amt t : Nat)
        (b : VaultBidderState) (s : VaultUserSubscriptionState),
        bid a sig amt t = .ok (b, s) →
        s.max_rent = a.subState.max_rent ∧ s.rent ≤ a.subState.rent)
    ∧ (∀ (a : BidAccounts) (sig : Bytes) (amt t : Nat)
        (b : VaultBidderState) (s : VaultUserSubscriptionState),
        bid a sig amt t = .ok (b, s) →
        a.subState.rent ≤ a.subState.max_rent → s.rent ≤ s.max_rent) := by
  have hbid : ∀ (a : BidAccounts) (sig : Bytes) (amt t : Nat)
      (b : VaultBidderState) (s : VaultUserSubscriptionState),
      bid a sig amt t = .ok (b, s) →
      s.max_rent = a.subState.max_rent ∧ s.rent ≤ a.subState.rent := by
    intro a sig amt t b s h
    obtain ⟨-, rfl, -⟩ := bid_ok_inv h
    repeat' split
    all_goals simp_all
    all_goals omega
  refine ⟨?_, hbid, ?_⟩
  · intro a mr ai ph t s u h
    obtain ⟨h1, h2⟩ := start_subscription_ok_inv h
    rw [h1, h2]
  · intro a sig amt t b s h hle
    obtain ⟨hm, hr⟩ := hbid a sig amt t b s h
    omega

/-- C8, witness: the example Open stores price = ceiling = 100, and after
the winning example Bid at 90 the price 90 is at most the ceiling 100. -/
theorem C8_price_never_exceeds_ceiling_witness :
    start_subscription startAccEx 100 1 "ph" 0 =
      .ok ({ freshSubState with
              id := 0, app_id := 1, is_initialized := true
              params_hash := "ph", max_rent := 100, rent := 100, bid_endtime := 60 },
           { is_initialized := true, count := 1, balance := 500 })
    ∧ (100 : Nat) = (100 : Nat)
    ∧ (90 : Nat) ≤ (100 : Nat) :=
  ⟨by decide,
   C8_price_never_exceeds_ceiling.1 startAccEx 100 1 "ph" 0
     ({ freshSubState with
        id := 0, app_id := 1, is_initialized := true
        params_hash := "ph", max_rent := 100, rent := 100, bid_endtime := 60 })
     ({ is_initialized := true, count := 1, balance := 500 }) (by decide),
   C8_price_never_exceeds_ceiling.2.2 bidAccEx sigEx 90 0
     ({ is_initialized := true, nonce := 1 })
     ({ subEx with executor := bidderKeyEx, rent := 90 })
     (by decide) (by decide)⟩

/-- A record laid out `header ‖ pubkey ‖ sig ‖ msg` with the matching
header passes `check_ed25519_data`. -/
theorem check_ed25519_data_good (pubkey msg sig : Bytes)
    (hpk : pubkey.length = 32) (hsg : sig.length = 64) (hm : msg.length < 2 ^ 16) :
    check_ed25519_data (edIxHeader msg.length ++ (pubkey ++ (sig ++ msg))) pubkey msg sig
      = .ok () := by
  have hdrop16 : (edIxHeader msg.length ++ (pubkey ++ (sig ++ msg))).drop 16
      = pubkey ++ (sig ++ msg) := by
    simp [edIxHeader, u16leBytes]
  have hdrop48 : (edIxHeader msg.length ++ (pubkey ++ (sig ++ msg))).drop 48
      = sig ++ msg := by
    rw [show (48 : Nat) = 16 + 32 from rfl, ← List.drop_drop, hdrop16]
    rw [List.drop_append_eq_append_drop]
    simp [hpk]
  have hdrop112 : (edIxHeader msg.length ++ (pubkey ++ (sig ++ msg))).drop 112
      = msg := by
    rw [show (112 : Nat) = 48 + 64 from rfl, ← List.drop_drop, hdrop48]
    rw [List.drop_append_eq_append_drop]
    simp [hsg]
  have hs16 : bslice (edIxHeader msg.length ++ (pubkey ++ (sig ++ msg))) 16 32 = pubkey := by
    rw [bslice, hdrop16, List.take_append_eq_append_take]
    simp [hpk]
  have hs48 : bslice (edIxHeader msg.length ++ (pubkey ++ (sig ++ msg))) 48 64 = sig := by
    rw [bslice, hdrop48, List.take_append_eq_append_take]
    simp [hsg]
  unfold check_ed25519_data
  rw [if_neg, if_neg]
  · push_neg
    refine ⟨hs16, hdrop112, hs48⟩
  · push_neg
    refine ⟨?_, ?_, ?_, ?_, ?_, ?_, ?_, ?_, ?_⟩
    all_goals simp [bslice, edIxHeader, u16leBytes, hpk, hsg,
      (show List.length msg % 65536 = List.length msg from Nat.mod_eq_of_lt (by omega))]

/-- A byte string that passes `check_ed25519_data` is exactly
`header ‖ pubkey ‖ sig ‖ msg`. -/
theorem check_ed25519_data_ok_inv {d : Bytes} {pubkey msg sig : Bytes}
    (hpk : pubkey.length = 32) (hsg : sig.length = 64) (hm : msg.length < 2 ^ 16)
    (h : check_ed25519_data d pubkey msg sig = .ok ()) :
    d = edIxHeader msg.length ++ (pubkey ++ (sig ++ msg)) := by
  unfold check_ed25519_data at h
  simp only [] at h
  split at h
  · exact Except.noConfusion h
  next hhdr =>
  split at h
  · exact Except.noConfusion h
  next hargs =>
  push_neg at hhdr hargs
  obtain ⟨h0, h1, h2, h3, h4, h5, h6, h7, h8⟩ := hhdr
  obtain ⟨hpkeq, hmsgeq, hsigeq⟩ := hargs
  have hh : bslice d 0 16 = edIxHeader msg.length := by
    have e01 := bslice_append d 0 1 1
    have e02 := bslice_append d 0 2 2
    have e04 := bslice_append d 0 4 2
    have e06 := bslice_append d 0 6 2
    have e08 := bslice_append d 0 8 2
    have e10 := bslice_append d 0 10 2
    have e12 := bslice_append d 0 12 2
    have e14 := bslice_append d 0 14 2
    norm_num at e01 e02 e04 e06 e08 e10 e12 e14
    rw [← e14, ← e12, ← e10, ← e08, ← e06, ← e04, ← e02, ← e01,
        h0, h1, h2, h3, h4, h5, h6, h7, h8]
    norm_num [edIxHeader, u16leBytes, hpk, hsg,
      (show List.length msg % 65536 = List.length msg from Nat.mod_eq_of_lt (by omega))]
  have e1 : bslice d 48 64 ++ d.drop 112 = d.drop 48 := by
    rw [bslice, show (112 : Nat) = 48 + 64 from rfl, ← List.drop_drop]
    exact List.take_append_drop 64 (d.drop 48)
  have e2 : bslice d 16 32 ++ d.drop 48 = d.drop 16 := by
    rw [bslice, show (48 : Nat) = 16 + 32 from rfl, ← List.drop_drop]
    exact List.take_append_drop 32 (d.drop 16)
  have e3 : bslice d 0 16 ++ d.drop 16 = d := by
    rw [bslice, List.drop_zero]
    exact List.take_append_drop 16 d
  calc d = bslice d 0 16 ++ d.drop 16 := e3.symm
    _ = bslice d 0 16 ++ (bslice d 16 32 ++ d.drop 48) := by rw [e2]
    _ = bslice d 0 16 ++ (bslice d 16 32 ++ (bslice d 48 64 ++ d.drop 112)) := by rw [e1]
    _ = edIxHeader msg.length ++ (pubkey ++ (sig ++ msg)) := by
          rw [hh, hpkeq, hmsgeq, hsigeq]

/-- C6 (amended): the signature verification step accepts a record if and
only if it targets the ed25519 program identity, carries zero auxiliary
accounts, and its payload is exactly the 16-byte fixed header, then the
32-byte key, then the 64-byte signature, then the message (total
`16 + 64 + 32 + message_length` bytes); any byte deviation in header,
key, signature or message is rejected.  (The claim's stated order —
signature before key — does not match the code: the key is at offset 16
and the signature at offset 48; see the counterexample.) -/
theorem C6_verification_record_characterization (ix : Instruction)
    (pubkey msg sig : Bytes)
    (hpk : pubkey.length = 32) (hsg : sig.length = 64) (hm : msg.length < 2 ^ 16) :
    verify_ed25519_ix ix pubkey msg sig = .ok ()
      ↔ ix.program_id = ED25519_ID ∧ ix.accountsLen = 0
        ∧ ix.data = edIxHeader msg.length ++ (pubkey ++ (sig ++ msg)) := by
  constructor
  · intro h
    unfold verify_ed25519_ix at h
    split at h
    · exact Except.noConfusion h
    next hc =>
    push_neg at hc
    exact ⟨hc.1, hc.2.1, check_ed25519_data_ok_inv hpk hsg hm h⟩
  · rintro ⟨hid, hacc, hdata⟩
    unfold verify_ed25519_ix
    rw [if_neg]
    · rw [hdata]
      exact check_ed25519_data_good pubkey msg sig hpk hsg hm
    · push_neg
      refine ⟨hid, hacc, ?_⟩
      rw [hdata]
      simp [edIxHeader, u16leBytes]
      omega

/-- C6, witness: the characterization applied to the concrete example
record (32-byte key, 40-byte message `bidder ‖ nonce`, 64-byte
signature). -/
theorem C6_verification_record_characterization_witness :
    oracleKey.length = 32 ∧ sigEx.length = 64 ∧ (msgFor bidderKeyEx 0).length < 2 ^ 16
    ∧ (verify_ed25519_ix (goodEdIx oracleKey (msgFor bidderKeyEx 0) sigEx)
          oracleKey (msgFor bidderKeyEx 0) sigEx = .ok ()
        ↔ (goodEdIx oracleKey (msgFor bidderKeyEx 0) sigEx).program_id = ED25519_ID
          ∧ (goodEdIx oracleKey (msgFor bidderKeyEx 0) sigEx).accountsLen = 0
          ∧ (goodEdIx oracleKey (msgFor bidderKeyEx 0) sigEx).data
              = edIxHeader (msgFor bidderKeyEx 0).length
                  ++ (oracleKey ++ (sigEx ++ msgFor bidderKeyEx 0))) :=
  ⟨by decide, by decide, by decide,
   C6_verification_record_characterization
     (goodEdIx oracleKey (msgFor bidderKeyEx 0) sigEx)
     oracleKey (msgFor bidderKeyEx 0) sigEx
     (by decide) (by decide) (by decide)⟩

/-- C6, counterexample: under the claim's layout the 64-byte signature
would occupy payload bytes 16..80, so a record whose bytes 16..80 differ
from the supplied signature would have to be rejected.  The concrete
well-formed record below is accepted by `verify_ed25519_ix` even though
its bytes 16..80 (which hold the 32-byte key followed by the first half
of the signature) differ from the signature: the code's layout stores the
key at offset 16 and the signature at offset 48, not the claimed order. -/
theorem C6_layout_counterexample :
    verify_ed25519_ix (goodEdIx oracleKey (msgFor bidderKeyEx 0) sigEx)
        oracleKey (msgFor bidderKeyEx 0) sigEx = .ok ()
    ∧ bslice (goodEdIx oracleKey (msgFor bidderKeyEx 0) sigEx).data 16 64 ≠ sigEx := by
  decide

/-- C2 (amended): for every authenticated Bid arriving strictly before
the bid-window end, provided the caller supplies the genuine system
program (the all-zero key, which is also the placeholder identity Open
stores) as the system-program account: a bid strictly below the current
price makes the bidder the executor and lowers the price to the bid; a
bid equal to the current price makes the bidder the executor only when
the placeholder identity is still stored, and leaves the price
unchanged; in every other case executor and price are unchanged.  (The
code compares the stored executor against the caller-supplied
system-program account's key, so without the proviso an equal bid can
displace an already-assigned executor; see the counterexample.) -/
theorem C2_bid_acceptance_rule (a : BidAccounts) (sig : Bytes) (amt t : Nat)
    (h : bidAuthOk a sig) (ht : t < a.subState.bid_endtime)
    (hsys : a.systemProgramKey = zeroPubkey) :
    bid a sig amt t =
      .ok ({ is_initialized := true, nonce := u64add a.bidderState.nonce 1 },
        if amt < a.subState.rent then
          { a.subState with executor := a.bidderKey, rent := amt }
        else if amt = a.subState.rent then
          (if a.subState.executor = zeroPubkey then
            { a.subState with executor := a.bidderKey }
          else a.subState)
        else a.subState) := by
  obtain ⟨h1, h2, h3, h4, h5, h6⟩ := h
  rw [← hsys]
  unfold bid bidSettle
  rw [h5]
  simp [h1, h2, h3, h4, h6, ht]

/-- C2, witness: on the example accounts, a bid of 90 against price 100
before the window end wins and lowers the price to 90. -/
theorem C2_bid_acceptance_rule_witness :
    bidAuthOk bidAccEx sigEx
    ∧ (0 : Nat) < bidAccEx.subState.bid_endtime
    ∧ bid bidAccEx sigEx 90 0 =
        .ok ({ is_initialized := true, nonce := 1 },
             { subEx with executor := bidderKeyEx, rent := 90 }) :=
  ⟨by decide, by decide,
   C2_bid_acceptance_rule bidAccEx sigEx 90 0 (by decide) (by decide) (by decide)⟩

/-- C9: `bid` never inspects the subscription's closed or assigned flags:
an authenticated bid on an initialized subscription that is already
closed or already assigned, arriving strictly before the bid-window end,
still succeeds (the flags carry over unchanged) and a strictly lower bid
still replaces the executor and lowers the price. -/
theorem C9_bid_ignores_closed_and_assigned (a : BidAccounts) (sig : Bytes)
    (amt t : Nat) (h : bidAuthOk a sig) (ht : t < a.subState.bid_endtime)
    (_hflag : a.subState.closed = true ∨ a.subState.is_assigned = true) :
    ∃ b s, bid a sig amt t = .ok (b, s)
      ∧ s.closed = a.subState.closed
      ∧ s.is_assigned = a.subState.is_assigned
      ∧ (amt < a.subState.rent → s.executor = a.bidderKey ∧ s.rent = amt) := by
  obtain ⟨h1, h2, h3, h4, h5, h6⟩ := h
  have hb : bid a sig amt t =
      .ok ({ is_initialized := true, nonce := u64add a.bidderState.nonce 1 },
        if amt < a.subState.rent then
          { a.subState with executor := a.bidderKey, rent := amt }
        else if amt = a.subState.rent then
          (if a.subState.executor = a.systemProgramKey then
            { a.subState with executor := a.bidderKey }
          else a.subState)
        else a.subState) := by
    unfold bid bidSettle
    rw [h5]
    simp [h1, h2, h3, h4, h6, ht]
  refine ⟨_, _, hb, ?_, ?_, ?_⟩
  · repeat' split
    all_goals rfl
  · repeat' split
    all_goals rfl
  · intro hlt
    rw [if_pos hlt]
    exact ⟨rfl, rfl⟩

/-- C9, witness: a bid of 90 on the already-closed example subscription
still succeeds, stays closed, and replaces executor and price. -/
theorem C9_bid_ignores_closed_and_assigned_witness :
    bidAuthOk ({ bidAccEx with subState := { subEx with closed := true } }) sigEx
    ∧ ({ bidAccEx with subState := { subEx with closed := true } } :
        BidAccounts).subState.closed = true
    ∧ (∃ b s, bid ({ bidAccEx with subState := { subEx with closed := true } })
          sigEx 90 0 = .ok (b, s)
        ∧ s.closed = ({ bidAccEx with subState := { subEx with closed := true } } :
            BidAccounts).subState.closed
        ∧ s.is_assigned = ({ bidAccEx with subState := { subEx with closed := true } } :
            BidAccounts).subState.is_assigned
        ∧ (90 < ({ bidAccEx with subState := { subEx with closed := true } } :
            BidAccounts).subState.rent → s.executor = ({ bidAccEx with
              subState := { subEx with closed := true } } : BidAccounts).bidderKey
            ∧ s.rent = 90)) :=
  ⟨by decide, by decide,
   C9_bid_ignores_closed_and_assigned
     ({ bidAccEx with subState := { subEx with closed := true } }) sigEx 90 0
     (by decide) (by decide) (Or.inl (by decide))⟩

/-- C10: Close marks the subscription closed and changes nothing else;
in particular it is idempotent — on an already-closed subscription it
succeeds again and returns the state unchanged, and a second Close after
a first one returns the same state. -/
theorem C10_close_idempotent_and_minimal (a : CloseSubAccounts)
    (hs : a.userIsSigner = true) (ho : a.userSubOwnerIsProgram = true)
    (hi : a.subState.is_initialized = true) (hp : a.userSubPda = a.userSubKey) :
    close_sub a = .ok { a.subState with closed := true }
    ∧ (a.subState.closed = true → close_sub a = .ok a.subState)
    ∧ close_sub { a with subState := { a.subState with closed := true } }
        = .ok { a.subState with closed := true } := by
  have h1 : close_sub a = .ok { a.subState with closed := true } := by
    unfold close_sub
    simp [hs, ho, hi, hp]
  refine ⟨h1, ?_, ?_⟩
  · intro hc
    rw [h1, closed_update_self _ hc]
  · unfold close_sub
    simp [hs, ho, hi, hp]

/-- C10, witness: closing the example subscription, and closing the
already-closed result again, both return the closed state. -/
theorem C10_close_idempotent_and_minimal_witness :
    close_sub closeAccEx = .ok ({ subEx with closed := true })
    ∧ close_sub ({ closeAccEx with subState := { subEx with closed := true } })
        = .ok ({ subEx with closed := true }) :=
  ⟨(C10_close_idempotent_and_minimal closeAccEx
      (by decide) (by decide) (by decide) (by decide)).1,
   (C10_close_idempotent_and_minimal closeAccEx
      (by decide) (by decide) (by decide) (by decide)).2.2⟩

/-- C5 (amended): ReportWork and Close do recompute the subscription
address and reject a mismatch, and Bid and ClaimBid recompute and enforce
the bidder-state address; but Bid and ClaimBid perform no check on the
supplied subscription account's address — they only require program
ownership, and their outcome is entirely independent of the supplied
subscription address. -/
theorem C5_bid_claim_skip_subscription_pda :
    (∀ (a : BidAccounts) (sig : Bytes) (amt t : Nat) (k : Bytes),
        bid { a with subStateKey := k } sig amt t = bid a sig amt t)
    ∧ (∀ (a : ClaimBidAccounts) (sig : Bytes) (t : Nat) (k : Bytes),
        claimbid { a with subStateKey := k } sig t = claimbid a sig t)
    ∧ (∀ (a : BidAccounts) (sig : Bytes) (amt t : Nat),
        a.bidderIsSigner = true → a.subStateOwnerIsProgram = true →
        a.bidderStatePda ≠ a.bidderStateKey →
        bid a sig amt t = .error .InvalidPDA)
    ∧ (∀ (a : ClaimBidAccounts) (sig : Bytes) (t : Nat),
        a.bidWinnerIsSigner = true → a.bidWinnerStateOwnerIsProgram = true →
        a.subStateOwnerIsProgram = true →
        a.bidderStatePda ≠ a.bidWinnerStateKey →
        claimbid a sig t = .error .InvalidPDA) := by
  refine ⟨?_, ?_, ?_, ?_⟩
  · intro a sig amt t k
    cases a
    rfl
  · intro a sig t k
    cases a
    rfl
  · intro a sig amt t hsg how hpda
    unfold bid
    simp [hsg, how, hpda]
  · intro a sig t hsg hbo how hpda
    unfold claimbid
    simp [hsg, hbo, how, hpda]

/-- C5, witness: changing the supplied subscription address does not
change the outcome of the example bid, and a mismatched bidder-state
address is rejected with the PDA error. -/
theorem C5_bid_claim_skip_subscription_pda_witness :
    bid ({ bidAccEx with subStateKey := [7] }) sigEx 90 0 = bid bidAccEx sigEx 90 0
    ∧ bid ({ bidAccEx with bidderStatePda := List.replicate 32 12 }) sigEx 90 0
        = .error .InvalidPDA :=
  ⟨C5_bid_claim_skip_subscription_pda.1 bidAccEx sigEx 90 0 [7],
   C5_bid_claim_skip_subscription_pda.2.2.1
     ({ bidAccEx with bidderStatePda := List.replicate 32 12 }) sigEx 90 0
     (by decide) (by decide) (by decide)⟩

/-- C5, counterexample: two authenticated example Bid calls that differ
only in the supplied subscription account address both succeed (with the
same resulting states).  The recomputed deterministic subscription
address is a single value, so at least one of the two calls supplies an
address different from it and is nonetheless accepted — refuting the
claim that Bid rejects a subscription account whose address does not
match the recomputed one. -/
theorem C5_counterexample_bid_accepts_any_subscription_address :
    bid bidAccEx sigEx 90 0 =
      .ok ({ is_initialized := true, nonce := 1 },
           { subEx with executor := bidderKeyEx, rent := 90 })
    ∧ bid ({ bidAccEx with subStateKey := [2] }) sigEx 90 0 =
      .ok ({ is_initialized := true, nonce := 1 },
           { subEx with executor := bidderKeyEx, rent := 90 })
    ∧ bidAccEx.subStateKey ≠ [2] := by
  decide

/-- C7: ClaimBid (after authentication) fails with the closed error on a
closed subscription, the already-claimed error when already assigned, the
unauthorized error when the caller is not the recorded executor, the
reported-early error before the bid-window end, and the claim-expired
error after the bid-window end plus 300; within the window it marks the
subscription assigned, sets last-report-time to the current time, and
increments the bidder nonce by one. -/
theorem C7_claimbid_errors_and_success (a : ClaimBidAccounts) (sig : Bytes) (t : Nat)
    (h : claimAuthOk a sig)
    (hov : a.subState.bid_endtime + 300 < U64MOD)
    (hn : a.bidWinnerState.nonce + 1 < U64MOD) :
    (a.subState.closed = true → claimbid a sig t = .error .SubScriptionClosed)
    ∧ (a.subState.closed = false → a.subState.is_assigned = true →
        claimbid a sig t = .error .BidAlreadyClaimed)
    ∧ (a.subState.closed = false → a.subState.is_assigned = false →
        a.subState.executor ≠ a.bidWinnerKey →
        claimbid a sig t = .error .UnAuthToClaimBid)
    ∧ (a.subState.closed = false → a.subState.is_assigned = false →
        a.subState.executor = a.bidWinnerKey → t < a.subState.bid_endtime →
        claimbid a sig t = .error .ReportedEarly)
    ∧ (a.subState.closed = false → a.subState.is_assigned = false →
        a.subState.executor = a.bidWinnerKey → t > a.subState.bid_endtime + 300 →
        claimbid a sig t = .error .BidClaimExpired)
    ∧ (a.subState.closed = false → a.subState.is_assigned = false →
        a.subState.executor = a.bidWinnerKey →
        a.subState.bid_endtime ≤ t → t ≤ a.subState.bid_endtime + 300 →
        claimbid a sig t =
          .ok ({ a.bidWinnerState with nonce := a.bidWinnerState.nonce + 1 },
               { a.subState with is_assigned := true, last_report_time := t })) := by
  obtain ⟨h1, h2, h3, h4, h5, h6, h7⟩ := h
  have hadd : u64add a.subState.bid_endtime 300 = a.subState.bid_endtime + 300 :=
    Nat.mod_eq_of_lt hov
  have hup : u64add a.bidWinnerState.nonce 1 = a.bidWinnerState.nonce + 1 :=
    Nat.mod_eq_of_lt hn
  refine ⟨?_, ?_, ?_, ?_, ?_, ?_⟩
  · intro hc
    unfold claimbid claimbidSettle
    rw [h6]
    simp [h1, h2, h3, h4, h5, h7, hc]
  · intro hc hass
    unfold claimbid claimbidSettle
    rw [h6]
    simp [h1, h2, h3, h4, h5, h7, hc, hass]
  · intro hc hass hex
    unfold claimbid claimbidSettle
    rw [h6]
    simp [h1, h2, h3, h4, h5, h7, hc, hass, hex]
  · intro hc hass hex hlt
    unfold claimbid claimbidSettle
    rw [h6]
    simp [h1, h2, h3, h4, h5, h7, hc, hass, hex, hadd, hlt,
      (show ¬ t > a.subState.bid_endtime + 300 by omega)]
  · intro hc hass hex hgt
    unfold claimbid claimbidSettle
    rw [h6]
    simp [h1, h2, h3, h4, h5, h7, hc, hass, hex, hadd, hgt]
  · intro hc hass hex hge hle
    unfold claimbid claimbidSettle
    rw [h6]
    simp [h1, h2, h3, h4, h5, h7, hc, hass, hex, hadd, hup,
      (show ¬ t > a.subState.bid_endtime + 300 by omega),
      (show ¬ t < a.subState.bid_endtime by omega)]

/-- C7, witness: the example winner claims at time 60 (window end 50,
limit 350): the claim succeeds, assigns the subscription, stamps time 60
and bumps the nonce from 1 to 2. -/
theorem C7_claimbid_errors_and_success_witness :
    claimAuthOk claimAccEx sigEx
    ∧ claimbid claimAccEx sigEx 60 =
        .ok ({ is_initialized := true, nonce := 2 },
             { subEx with
                executor := bidderKeyEx, rent := 90
                is_assigned := true, last_report_time := 60 }) :=
  ⟨by decide,
   (C7_claimbid_errors_and_success claimAccEx sigEx 60
      (by decide) (by decide) (by decide)).2.2.2.2.2
     (by decide) (by decide) (by decide) (by decide) (by decide)⟩

/-- C3: for an authenticated ReportWork call that passes the
closed/assigned/executor/restart preconditions: strictly before
`last_report_time + 600` it fails with the reported-early error (the
transaction aborts, so no state changes); strictly after
`last_report_time + 900` it is not rejected for lateness but sets the
restart flag and pays nothing; within the bounds it succeeds. -/
theorem C3_report_liveness_window (a : ReportWorkAccounts) (sig : Bytes) (n t : Nat)
    (h : reportAuthOk a sig)
    (hov : a.subState.last_report_time + 900 < U64MOD) :
    (t < a.subState.last_report_time + 600 →
        report_work a n sig t = .error .ReportedEarly)
    ∧ (t > a.subState.last_report_time + 900 →
        ∃ r, report_work a n sig t = .ok r
          ∧ r.subState.restart = true ∧ r.paidToWorker = 0)
    ∧ (a.subState.last_report_time + 600 ≤ t →
        t ≤ a.subState.last_report_time + 900 →
        ∃ r, report_work a n sig t = .ok r) := by
  obtain ⟨h1, h2, h3, h4, h5, h6, h7, h8, h9, h10,
    h11, h12, h13, h14, h15, h16, h17, h18, h19⟩ := h
  have hacc : reportAccountChecks a = .ok () := by
    unfold reportAccountChecks
    simp [h1, h2, h3, h4, h5, h6, h7, h8, h9, h10, h11, h12]
  have hrw : report_work a n sig t = reportSettle a n t := by
    unfold report_work
    rw [hacc, h13]
  have ha9 : u64add a.subState.last_report_time 900 = a.subState.last_report_time + 900 :=
    Nat.mod_eq_of_lt hov
  have ha6 : u64add a.subState.last_report_time 600 = a.subState.last_report_time + 600 :=
    Nat.mod_eq_of_lt (by omega)
  refine ⟨?_, ?_, ?_⟩
  · intro hlt
    rw [hrw]
    unfold reportSettle reportSettleBody
    simp [h14, h15, h16, h17, h18, h19, ha9, ha6, hlt,
      (show ¬ t > a.subState.last_report_time + 900 by omega),
      (show t ≤ a.subState.last_report_time + 900 by omega)]
  · intro hgt
    rw [hrw]
    unfold reportSettle reportSettleBody
    simp [h14, h15, h16, h17, h18, h19, ha9, ha6, hgt,
      (show ¬ t ≤ a.subState.last_report_time + 900 by omega)]
    repeat' split
    all_goals refine ⟨_, rfl, ?_, rfl⟩
    all_goals simp
  · intro hge hle
    rw [hrw]
    unfold reportSettle reportSettleBody
    simp [h14, h15, h16, h17, h18, h19, ha9, ha6,
      (show ¬ t > a.subState.last_report_time + 900 by omega),
      (show ¬ t < a.subState.last_report_time + 600 by omega)]
    repeat' split
    all_goals exact ⟨_, rfl⟩

/-- C3, witness: on the example accounts (last report at 100), reporting
at 650 — before 100 + 600 — fails with the reported-early error. -/
theorem C3_report_liveness_window_witness :
    reportAuthOk reportAccEx sigEx
    ∧ (650 : Nat) < reportAccEx.subState.last_report_time + 600
    ∧ report_work reportAccEx 0 sigEx 650 = .error .ReportedEarly :=
  ⟨by decide, by decide,
   (C3_report_liveness_window reportAccEx sigEx 0 650
      (by decide) (by decide)).1 (by decide)⟩


/-- C2, counterexample: the claim says an equal-price bid wins only when
no executor has been assigned yet (the placeholder identity is still
stored).  The code instead compares the stored executor with the key of
the caller-supplied "system program" account, which it never validates
when the bidder-state account already exists.  Below, the subscription
already has executor `8…8` (not the placeholder) at price 90; the bidder
passes an account with that same key `8…8` as the system-program account
and bids exactly 90: the call passes authentication, arrives before the
window end, and the bidder becomes the executor — an equal bid won even
though an executor had been assigned. -/
theorem C2_counterexample_equal_bid_displaces_executor :
    ({ bidAccEx with
        subState := { subEx with executor := List.replicate 32 8, rent := 90 }
        systemProgramKey := List.replicate 32 8 } : BidAccounts).subState.executor
      ≠ zeroPubkey
    ∧ bid ({ bidAccEx with
        subState := { subEx with executor := List.replicate 32 8, rent := 90 }
        systemProgramKey := List.replicate 32 8 }) sigEx 90 0 =
      .ok ({ is_initialized := true, nonce := 1 },
           { subEx with executor := bidderKeyEx, rent := 90 }) := by
  decide
